import Mathlib

/-!
Verification of the resilient paginated-fetch engine of
src/optimized_jira_scrapper.py: the retry/backoff executor (safe_request),
the checkpoint store (load_checkpoint / save_checkpoint), the page planner
(the range(start_checkpoint, total, MAX_RESULTS) comprehension in
scrape_project), and the completed-unit processing loop of scrape_project.

Excluded as external collaborators (per the design document): the HTTP
transport itself, transform_issue's record reshaping (kept abstract as a
function parameter), file serialization of outputs, CLI wiring and progress
display.  Network responses are modelled as explicit environment values fed
to the embedded control flow.
-/

/-! ## Configuration constants (source lines 17-20) -/

def MAX_RESULTS : Nat := 50

def MAX_RETRIES : Nat := 5

def RETRY_BACKOFF : Nat := 5

def MAX_WORKERS : Nat := 5

/-! ## Page planner

scrape_project computes
  pages = [start for start in range(start_checkpoint, total, MAX_RESULTS)]
(source line 205).  pyRange s t p embeds Python's range(s, t, p) for a
positive step: it yields s, s+p, s+2p, ... while the value is below t. -/

def pyRange (s t p : Nat) : List Nat :=
  if h : 0 < p ∧ s < t then s :: pyRange (s + p) t p else []
  termination_by t - s
  decreasing_by omega

/-! ## Checkpoint store (source lines 74-91)

One checkpoint file per project, named from the project key (the naming
f-string is injective in the key), holding the JSON object
\x7b "last_startAt": v \x7d.  CheckpointState covers the file states on
which load_checkpoint RETURNS: it is the sub-model used by the claims about
the save/load interplay, and it contains every state save_checkpoint itself
ever writes, plus JSON-syntax corruption.  A file's state is:
  none                   - no file on disk
  some (Except.error ()) - file exists but json.load raises JSONDecodeError
  some (Except.ok v)     - file decodes to an object whose optional
                           "last_startAt" field is v (none when absent,
                           in which case dict.get supplies the default 0).
All offsets handled by the program are non-negative.

load_checkpoint is NOT total on the full space of on-disk states: its try
block catches only json.JSONDecodeError, so an existing file that open
cannot read (OSError) or whose bytes decode to valid JSON that is not an
object (.get then raises AttributeError) propagates an uncaught exception.
FullCheckpointState / load_checkpoint_full below extend the model with
those raising states. -/

def CheckpointState : Type := String → Option (Except Unit (Option Nat))

def emptyCheckpoints : CheckpointState := fun _ => none

/-- load_checkpoint (source lines 74-84): 0 when the file is absent, 0 with
a warning when json.load fails, otherwise the stored field with default 0. -/
def load_checkpoint (project_key : String) (fs : CheckpointState) : Nat :=
  match fs project_key with
  | none => 0
  | some (Except.error _) => 0
  | some (Except.ok v) => v.getD 0

/-- save_checkpoint (source lines 87-91): unconditionally overwrites the
project's checkpoint file with \x7b "last_startAt": start_at \x7d. -/
def save_checkpoint (project_key : String) (start_at : Nat)
    (fs : CheckpointState) : CheckpointState :=
  fun k => if k = project_key then some (Except.ok (some start_at)) else fs k

/-- A sequence of save_checkpoint calls applied in arrival order. -/
def applySaves (saves : List (String × Nat)) (fs : CheckpointState) :
    CheckpointState :=
  saves.foldl (fun acc sv => save_checkpoint sv.1 sv.2 acc) fs

/-- The state of one on-disk checkpoint file, over the FULL space of
representations load_checkpoint can meet.  (A decoded object whose
"last_startAt" holds a non-integer is returned by load_checkpoint as-is
without raising; that value then crashes later, in scrape_project's range
call, outside the store, so it is not distinguished here.) -/
inductive CheckpointFile where
  | unreadable
  | undecodable
  | decodedNonObject
  | decodedObject (v : Option Nat)
  deriving DecidableEq

/-- The Python exceptions load_checkpoint can let escape: OSError from
open(f) on an existing but unreadable file, and AttributeError from calling
.get on a json.load result that is not a dict. -/
inductive PyError where
  | osError
  | attributeError
  deriving DecidableEq

def FullCheckpointState : Type := String → Option CheckpointFile

/-- load_checkpoint (source lines 74-84) over the full file-state space,
with its exception behaviour explicit: the try block catches ONLY
json.JSONDecodeError (returning 0 with a warning); OSError raised by open
and AttributeError raised by .get on a non-object escape uncaught. -/
def load_checkpoint_full (project_key : String) (fs : FullCheckpointState) :
    Except PyError Nat :=
  match fs project_key with
  | none => Except.ok 0
  | some CheckpointFile.unreadable => Except.error PyError.osError
  | some CheckpointFile.undecodable => Except.ok 0
  | some CheckpointFile.decodedNonObject => Except.error PyError.attributeError
  | some (CheckpointFile.decodedObject v) => Except.ok (v.getD 0)

/-! ## Resilient call executor (source lines 38-67)

safe_request loops for attempt in range(1, MAX_RETRIES + 1).  Each attempt
either raises a transport-level requests exception or yields an HTTP
response with a status code, an optional parsed Retry-After header, and a
parsed body.  The loop body (embedded as attemptStep) returns the final
result, or the number of seconds slept before the next attempt. -/

structure HttpResp (β : Type) where
  status : Nat
  retryAfter : Option Nat
  body : β

inductive Attempt (β : Type) where
  | resp (r : HttpResp β)
  | transportError

/-- One iteration of the retry loop at 1-based attempt number a:
200 returns the body; 429 sleeps the Retry-After value (default 60);
5xx and transport errors sleep min(RETRY_BACKOFF * attempt, 60);
any other status aborts with None. -/
def attemptStep {β : Type} (attempt : Nat) : Attempt β → Except Nat (Option β)
  | Attempt.resp r =>
    if r.status = 200 then Except.ok (some r.body)
    else if r.status = 429 then Except.error (r.retryAfter.getD 60)
    else if 500 ≤ r.status ∧ r.status < 600 then
      Except.error (min (RETRY_BACKOFF * attempt) 60)
    else Except.ok none
  | Attempt.transportError => Except.error (min (RETRY_BACKOFF * attempt) 60)

structure ReqOutcome (β : Type) where
  result : Option β
  sleeps : List Nat
  attemptsMade : Nat
  deriving DecidableEq

/-- The retry loop from attempt number a on: stops with the step's result,
or records the sleep and retries; after MAX_RETRIES attempts returns None. -/
def safe_request_from {β : Type} (env : Nat → Attempt β) (a : Nat) :
    ReqOutcome β :=
  if h : a ≤ MAX_RETRIES then
    match attemptStep a (env a) with
    | Except.ok r => ⟨r, [], 1⟩
    | Except.error w =>
      let rest := safe_request_from env (a + 1)
      ⟨rest.result, w :: rest.sleeps, rest.attemptsMade + 1⟩
  else ⟨none, [], 0⟩
  termination_by MAX_RETRIES + 1 - a
  decreasing_by simp only [MAX_RETRIES] at h ⊢; omega

def safe_request {β : Type} (env : Nat → Attempt β) : ReqOutcome β :=
  safe_request_from env 1

/-! ## Paginated fetch (source lines 98-122)

A parsed search-response body: dict access data.get("total", 0) and
data.get("issues", []) is modelled by optional fields with those defaults.
Raw issues stay abstract (type ι). -/

structure JiraBody (ι : Type) where
  total : Option Nat
  issues : Option (List ι)

/-- get_total_issues (source lines 98-105), applied to the result of its
safe_request call: data.get("total", 0) if data else 0. -/
def get_total_issues {ι : Type} (data : Option (JiraBody ι)) : Nat :=
  match data with
  | none => 0
  | some d => d.total.getD 0

/-- fetch_page (source lines 108-122), applied to the result of its
safe_request call: on a falsy body (None; an empty dict gives the same
output through the other branch) the pair (start_at, []), otherwise
(start_at, data.get("issues", [])). -/
def fetch_page {ι : Type} (start_at : Nat) (data : Option (JiraBody ι)) :
    Nat × List ι :=
  match data with
  | none => (start_at, [])
  | some d => (start_at, d.issues.getD [])

/-! ## Concurrent fetch scheduler and collection driver (source lines 186-229)

scrape_project submits fetch_page for every planned offset and consumes the
futures in completion order.  A run is embedded as a fold of the loop body
over the list of completed units (start offset, returned issues) in their
completion order; transform_issue is external record reshaping, kept
abstract as the parameter tr. -/

/-- The body of the as_completed loop (source lines 215-229): a unit with a
non-empty issue list appends its transformed records to the aggregate and
saves checkpoint start_at + MAX_RESULTS; an empty (failed or genuinely
empty) unit changes nothing. -/
def processUnit {ι ρ : Type} (tr : ι → ρ) (project_key : String)
    (st : CheckpointState × List ρ) (unit : Nat × List ι) :
    CheckpointState × List ρ :=
  if unit.2.isEmpty then st
  else (save_checkpoint project_key (unit.1 + MAX_RESULTS) st.1,
        st.2 ++ unit.2.map tr)

def runScheduler {ι ρ : Type} (tr : ι → ρ) (project_key : String)
    (completed : List (Nat × List ι)) (fs : CheckpointState) :
    CheckpointState × List ρ :=
  completed.foldl (processUnit tr project_key) (fs, [])

/-- The page plan of scrape_project (source lines 199-205): an empty run
when the discovered total is 0, otherwise
range(load_checkpoint(project_key), total, MAX_RESULTS). -/
def scrapePlan (project_key : String) (total : Nat) (fs : CheckpointState) :
    List Nat :=
  if total = 0 then []
  else pyRange (load_checkpoint project_key fs) total MAX_RESULTS

/-- One full scrape_project run in which the units happen to complete in
submission (ascending-offset) order, each planned page yielding the issue
list fetch of its offset. -/
def scrapeRunInOrder {ι ρ : Type} (tr : ι → ρ) (project_key : String)
    (total : Nat) (fetch : Nat → List ι) (fs : CheckpointState) :
    CheckpointState × List ρ :=
  runScheduler tr project_key
    ((scrapePlan project_key total fs).map (fun o => (o, fetch o))) fs

/-- Concrete project keys used in concrete scenarios. -/
def keyA : String := "ACCUMULO"

def keyB : String := "ACE"

/-! ## Planner lemmas -/

theorem pyRange_eq_nil {s t p : Nat} (h : ¬(0 < p ∧ s < t)) :
    pyRange s t p = [] := by
  rw [pyRange]
  simp [h]

theorem pyRange_eq_cons {s t p : Nat} (hp : 0 < p) (hst : s < t) :
    pyRange s t p = s :: pyRange (s + p) t p := by
  rw [pyRange]
  simp [hp, hst]

theorem pyRange_empty_of_le {s t p : Nat} (h : t ≤ s) : pyRange s t p = [] :=
  pyRange_eq_nil (by omega)

/-- Number of planned pages: Python range length, i.e. the ceiling of
(t - s) / p on naturals (with truncated subtraction playing max 0). -/
theorem pyRange_length : ∀ s t p : Nat, 0 < p →
    (pyRange s t p).length = (t - s + (p - 1)) / p := by
  intro s t p
  induction s, t, p using pyRange.induct with
  | case1 s t p h ih =>
    intro hp
    rw [pyRange_eq_cons h.1 h.2, List.length_cons, ih hp]
    have hd1 : t - s + (p - 1) = (t - s - 1) + p := by omega
    rw [hd1, Nat.add_div_right _ hp]
    rcases Nat.lt_or_ge (t - s) p with hlt | hge
    · have h0 : t - (s + p) = 0 := by omega
      rw [h0]
      rw [Nat.div_eq_of_lt (by omega), Nat.div_eq_of_lt (by omega)]
    · have harg : t - (s + p) + (p - 1) = t - s - 1 := by omega
      rw [harg]
  | case2 s t p h =>
    intro hp
    rw [pyRange_eq_nil h]
    have hts : t - s = 0 := by omega
    rw [hts]
    simp [Nat.div_eq_of_lt (by omega : p - 1 < p)]

/-- Membership in the plan: exactly the values congruent to the resume
offset modulo the page size, inside the half-open interval [s, t). -/
theorem pyRange_mem : ∀ s t p x : Nat, 0 < p →
    (x ∈ pyRange s t p ↔ s ≤ x ∧ x < t ∧ p ∣ (x - s)) := by
  intro s t p x
  induction s, t, p using pyRange.induct with
  | case1 s t p h ih =>
    intro hp
    rw [pyRange_eq_cons h.1 h.2, List.mem_cons, ih hp]
    constructor
    · rintro (rfl | ⟨h1, h2, k, hk⟩)
      · exact ⟨le_refl x, h.2, 0, by omega⟩
      · refine ⟨by omega, h2, k + 1, ?_⟩
        have hpk : p * (k + 1) = p * k + p := by ring
        omega
    · rintro ⟨h1, h2, k, hk⟩
      cases k with
      | zero =>
        left
        omega
      | succ k =>
        right
        refine ⟨?_, h2, k, ?_⟩
        · have hpk : p * (k + 1) = p * k + p := by ring
          have hk0 : 0 ≤ p * k := Nat.zero_le _
          omega
        · have hpk : p * (k + 1) = p * k + p := by ring
          omega
  | case2 s t p h =>
    intro hp
    rw [pyRange_eq_nil h]
    simp only [List.not_mem_nil, false_iff]
    rintro ⟨h1, h2, -⟩
    omega

/-- The plan is strictly ascending. -/
theorem pyRange_pairwise : ∀ s t p : Nat, 0 < p →
    (pyRange s t p).Pairwise (· < ·) := by
  intro s t p
  induction s, t, p using pyRange.induct with
  | case1 s t p h ih =>
    intro hp
    rw [pyRange_eq_cons h.1 h.2]
    refine List.Pairwise.cons ?_ (ih hp)
    intro y hy
    have hmem := (pyRange_mem (s + p) t p y hp).mp hy
    omega
  | case2 s t p h =>
    intro hp
    rw [pyRange_eq_nil h]
    exact List.Pairwise.nil

/-- When work remains, the first planned offset is the resume offset. -/
theorem pyRange_head {s t p : Nat} (hp : 0 < p) (hst : s < t) :
    (pyRange s t p).head? = some s := by
  rw [pyRange_eq_cons hp hst]
  rfl

/-- The last planned offset covers the tail of the interval: one more page
step from it reaches or passes t. -/
theorem pyRange_getLast : ∀ s t p : Nat, 0 < p → s < t →
    ∃ l, (pyRange s t p).getLast? = some l ∧ t ≤ l + p := by
  intro s t p
  induction s, t, p using pyRange.induct with
  | case1 s t p h ih =>
    intro hp hst
    rcases Nat.lt_or_ge (s + p) t with hlt | hge
    · obtain ⟨l, hl, hlp⟩ := ih hp hlt
      refine ⟨l, ?_, hlp⟩
      rw [pyRange_eq_cons hp hst]
      rw [pyRange_eq_cons hp hlt] at hl ⊢
      rw [List.getLast?_cons_cons]
      exact hl
    · refine ⟨s, ?_, by omega⟩
      rw [pyRange_eq_cons hp hst, pyRange_eq_nil (by omega)]
      rfl
  | case2 s t p h =>
    intro hp hst
    exact absurd ⟨hp, hst⟩ h

/-! ## Checkpoint-store lemmas -/

theorem load_save_same (k : String) (v : Nat) (fs : CheckpointState) :
    load_checkpoint k (save_checkpoint k v fs) = v := by
  simp [load_checkpoint, save_checkpoint]

theorem load_save_other {k k₂ : String} (h : k₂ ≠ k) (v : Nat)
    (fs : CheckpointState) :
    load_checkpoint k₂ (save_checkpoint k v fs) = load_checkpoint k₂ fs := by
  simp [load_checkpoint, save_checkpoint, h]

theorem getLast?_getD_cons {α : Type} (a d : α) (l : List α) :
    ((a :: l).getLast?).getD d = (l.getLast?).getD a := by
  cases l with
  | nil => rfl
  | cons b l =>
    rw [List.getLast?_cons_cons]
    cases hb : (b :: l).getLast? with
    | none => exact absurd hb (by simp [List.getLast?_cons])
    | some x => rfl

theorem map_getLast? {α β : Type} (f : α → β) :
    ∀ l : List α, (l.map f).getLast? = (l.getLast?).map f := by
  intro l
  induction l with
  | nil => rfl
  | cons a t ih =>
    cases t with
    | nil => rfl
    | cons b t₂ =>
      rw [List.map_cons, List.map_cons, List.getLast?_cons_cons,
        List.getLast?_cons_cons, ← List.map_cons]
      exact ih

/-! ## Scheduler lemmas -/

/-- After processing completed units that all carry a non-empty result, the
stored checkpoint is (last unit's offset) + MAX_RESULTS, or unchanged when
there were no units. -/
theorem load_runScheduler_foldl {ι ρ : Type} (tr : ι → ρ) (k : String) :
    ∀ (units : List (Nat × List ι)) (fs : CheckpointState) (res : List ρ),
    (∀ u ∈ units, u.2 ≠ []) →
    load_checkpoint k (units.foldl (processUnit tr k) (fs, res)).1 =
      ((units.map (fun u => u.1 + MAX_RESULTS)).getLast?).getD
        (load_checkpoint k fs) := by
  intro units
  induction units with
  | nil => intro fs res _; rfl
  | cons u rest ih =>
    intro fs res hne
    obtain ⟨o, iss⟩ := u
    have hiss : iss ≠ [] := hne (o, iss) (List.mem_cons_self _ _)
    have hstep : processUnit tr k (fs, res) (o, iss) =
        (save_checkpoint k (o + MAX_RESULTS) fs, res ++ iss.map tr) := by
      simp [processUnit, hiss]
    rw [List.foldl_cons, hstep,
      ih _ _ (fun u hu => hne u (List.mem_cons_of_mem _ hu)),
      load_save_same, List.map_cons, getLast?_getD_cons]

/-! ## Claims -/

/-- C1 (counterexample): save_checkpoint overwrites unconditionally, so a
later-arriving save with a smaller offset DOES lower the stored value: after
save 100 the store holds 100, but after the subsequent save 50 it holds 50,
not the maximum 100. -/
theorem C1_counterexample :
    load_checkpoint keyA (applySaves [(keyA, 100)] emptyCheckpoints) = 100 ∧
    load_checkpoint keyA
      (applySaves [(keyA, 100), (keyA, 50)] emptyCheckpoints) = 50 ∧
    (50 : Nat) < 100 := by
  refine ⟨?_, ?_, by decide⟩ <;>
    simp [applySaves, load_checkpoint, save_checkpoint, emptyCheckpoints]

/-- C1 (amended): the checkpoint store is last-write-wins, not
maximum-wins: after any sequence of save calls, the stored value for a
collection is the offset of the last save issued for that collection (the
prior stored value when there is none). -/
theorem C1_last_write_wins (k : String) :
    ∀ (saves : List (String × Nat)) (fs : CheckpointState),
    load_checkpoint k (applySaves saves fs) =
      (((saves.filter (fun sv => sv.1 = k)).map Prod.snd).getLast?).getD
        (load_checkpoint k fs) := by
  intro saves
  induction saves with
  | nil => intro fs; rfl
  | cons sv rest ih =>
    intro fs
    obtain ⟨k₂, v⟩ := sv
    have happ : applySaves ((k₂, v) :: rest) fs =
        applySaves rest (save_checkpoint k₂ v fs) := rfl
    rw [happ, ih]
    by_cases hk : k₂ = k
    · subst hk
      rw [load_save_same]
      have hfil : List.filter (fun sv => decide (sv.1 = k₂)) ((k₂, v) :: rest)
          = (k₂, v) :: List.filter (fun sv => decide (sv.1 = k₂)) rest := by
        simp [List.filter_cons]
      rw [hfil, List.map_cons, getLast?_getD_cons]
    · rw [load_save_other (Ne.symm hk) v fs]
      have hfil : List.filter (fun sv => decide (sv.1 = k)) ((k₂, v) :: rest)
          = List.filter (fun sv => decide (sv.1 = k)) rest := by
        simp [List.filter_cons, hk]
      rw [hfil]

/-- C3: for total_count ≥ 0, resume_offset ≥ 0 and page_size > 0 the
planner returns exactly ceil(max(0, total_count - resume_offset) /
page_size) offsets (natural subtraction truncates at 0, and
(d + (p-1)) / p is the ceiling of d / p), strictly ascending, and when
resume_offset < total_count the first offset is resume_offset. -/
theorem C3_page_plan_shape (total_count resume_offset page_size : Nat)
    (hp : 0 < page_size) :
    (pyRange resume_offset total_count page_size).length
      = (total_count - resume_offset + (page_size - 1)) / page_size ∧
    (pyRange resume_offset total_count page_size).Pairwise (· < ·) ∧
    (resume_offset < total_count →
      (pyRange resume_offset total_count page_size).head?
        = some resume_offset) :=
  ⟨pyRange_length _ _ _ hp, pyRange_pairwise _ _ _ hp,
   fun h => pyRange_head hp h⟩

/-- C3 witness: total 120, resume 0, page size 50 gives the 3-page plan
[0, 50, 100] starting at 0. -/
theorem C3_page_plan_shape_witness :
    (pyRange 0 120 50).length = 3 ∧
    (pyRange 0 120 50).Pairwise (· < ·) ∧
    (pyRange 0 120 50).head? = some 0 := by
  obtain ⟨h1, h2, h3⟩ := C3_page_plan_shape 120 0 50 (by decide)
  exact ⟨by rw [h1], h2, h3 (by decide)⟩

/-- C4 (counterexample): with resume_offset = 25 (not a multiple of the
page size 50) and total_count = 100, the plan is [25, 75]: it contains 25,
which is not a multiple of 50, and does not contain 50, a multiple of 50
inside [25, 100) — so the output is not the set of multiples of page_size
in [resume_offset, total_count). -/
theorem C4_counterexample :
    pyRange 25 100 50 = [25, 75] ∧
    (25 ∈ pyRange 25 100 50 ∧ ¬(50 ∣ 25)) ∧
    (50 ∉ pyRange 25 100 50 ∧ 25 ≤ 50 ∧ 50 < 100 ∧ 50 ∣ 50) := by
  have hev : pyRange 25 100 50 = [25, 75] := by simp [pyRange]
  refine ⟨hev, ⟨?_, by decide⟩, ?_, by decide, by decide, by decide⟩
  · rw [hev]
    decide
  · rw [hev]
    decide

/-- C4 (amended): the planner's output lists, in strictly ascending order,
exactly the values of [resume_offset, total_count) that differ from
resume_offset by a multiple of page_size (which are the multiples of
page_size precisely when resume_offset itself is one), and it is empty
whenever resume_offset ≥ total_count. -/
theorem C4_plan_membership (total_count resume_offset page_size x : Nat)
    (hp : 0 < page_size) :
    (x ∈ pyRange resume_offset total_count page_size ↔
      resume_offset ≤ x ∧ x < total_count ∧
        page_size ∣ (x - resume_offset)) ∧
    (pyRange resume_offset total_count page_size).Pairwise (· < ·) ∧
    (total_count ≤ resume_offset →
      pyRange resume_offset total_count page_size = []) :=
  ⟨pyRange_mem _ _ _ _ hp, pyRange_pairwise _ _ _ hp,
   fun h => pyRange_empty_of_le h⟩

/-- C4 witness: membership of 75 in the plan from 25 to 100 by step 50, its
ascending order, and emptiness of the degenerate plan from 100 to 100. -/
theorem C4_plan_membership_witness :
    (75 ∈ pyRange 25 100 50 ↔ 25 ≤ 75 ∧ 75 < 100 ∧ 50 ∣ (75 - 25)) ∧
    (pyRange 25 100 50).Pairwise (· < ·) ∧
    pyRange 100 100 50 = [] :=
  ⟨(C4_plan_membership 100 25 50 75 (by decide)).1,
   (C4_plan_membership 100 25 50 75 (by decide)).2.1,
   (C4_plan_membership 100 100 50 0 (by decide)).2.2 (by decide)⟩

/-- C2 (counterexample): total 100 against fresh checkpoints plans [0, 50];
both pages resolve with non-empty results but the page at offset 50
completes first, so the last checkpoint write stores 0 + 50 = 50, and a
second run with the same total and untouched checkpoint plans [50] — not
the empty plan. -/
theorem C2_counterexample :
    scrapePlan keyA 100 emptyCheckpoints = [0, 50] ∧
    (([(50, [1]), (0, [2])] : List (Nat × List Nat)).map Prod.fst).Perm
      (scrapePlan keyA 100 emptyCheckpoints) ∧
    (∀ u ∈ ([(50, [1]), (0, [2])] : List (Nat × List Nat)), u.2 ≠ []) ∧
    scrapePlan keyA 100
      (runScheduler (id : Nat → Nat) keyA [(50, [1]), (0, [2])]
        emptyCheckpoints).1 = [50] := by
  have hplan : scrapePlan keyA 100 emptyCheckpoints = [0, 50] := by
    simp [scrapePlan, load_checkpoint, emptyCheckpoints, MAX_RESULTS, pyRange]
  have hrun : (runScheduler (id : Nat → Nat) keyA [(50, [1]), (0, [2])]
      emptyCheckpoints).1
      = save_checkpoint keyA 50 (save_checkpoint keyA 100 emptyCheckpoints) := by
    simp [runScheduler, processUnit, MAX_RESULTS]
  refine ⟨hplan, ?_, by decide, ?_⟩
  · rw [hplan]
    exact List.Perm.swap 0 50 []
  · rw [hrun]
    have hload : load_checkpoint keyA
        (save_checkpoint keyA 50 (save_checkpoint keyA 100 emptyCheckpoints))
        = 50 := load_save_same keyA 50 _
    simp [scrapePlan, hload, MAX_RESULTS, pyRange]

/-- C2 (amended): resume idempotence holds for the completion order the
claim's premise implicitly assumes away races: if the planned pages
complete in ascending-offset (submission) order and every planned page
returns a non-empty result, then after the run — with the remote total
unchanged and the checkpoint not reset — a second run plans zero offsets.
(In general the second plan restarts at the last-COMPLETED page's offset +
MAX_RESULTS, as the counterexample shows.) -/
theorem C2_resume_idempotent_in_order {ι ρ : Type} (tr : ι → ρ)
    (project_key : String) (total : Nat) (fetch : Nat → List ι)
    (fs : CheckpointState)
    (hf : ∀ o ∈ scrapePlan project_key total fs, fetch o ≠ []) :
    scrapePlan project_key total
      (scrapeRunInOrder tr project_key total fetch fs).1 = [] := by
  by_cases ht : total = 0
  · simp [scrapePlan, ht]
  · have hplan : scrapePlan project_key total fs
        = pyRange (load_checkpoint project_key fs) total MAX_RESULTS := by
      simp [scrapePlan, ht]
    rcases Nat.lt_or_ge (load_checkpoint project_key fs) total with hlt | hge
    · obtain ⟨l, hl, hlp⟩ :=
        pyRange_getLast (load_checkpoint project_key fs) total MAX_RESULTS
          (by decide) hlt
      have hne : ∀ u ∈ (scrapePlan project_key total fs).map
          (fun o => (o, fetch o)), u.2 ≠ [] := by
        intro u hu
        obtain ⟨o, ho, rfl⟩ := List.mem_map.mp hu
        exact hf o ho
      have hload : load_checkpoint project_key
          (scrapeRunInOrder tr project_key total fetch fs).1
          = l + MAX_RESULTS := by
        unfold scrapeRunInOrder runScheduler
        rw [load_runScheduler_foldl tr project_key _ fs [] hne, List.map_map]
        have hmm : ((fun u : Nat × List ι => u.1 + MAX_RESULTS) ∘
            (fun o => (o, fetch o))) = fun o => o + MAX_RESULTS := rfl
        rw [hmm, map_getLast?, hplan, hl]
        rfl
      have h2 : scrapePlan project_key total
          (scrapeRunInOrder tr project_key total fetch fs).1
          = pyRange (l + MAX_RESULTS) total MAX_RESULTS := by
        simp [scrapePlan, ht, hload]
      rw [h2]
      exact pyRange_empty_of_le hlp
    · have hplan0 : scrapePlan project_key total fs = [] := by
        rw [hplan]
        exact pyRange_empty_of_le hge
      have hrun : (scrapeRunInOrder tr project_key total fetch fs).1 = fs := by
        unfold scrapeRunInOrder runScheduler
        rw [hplan0]
        rfl
      rw [hrun]
      exact hplan0

/-- C2 witness: a concrete in-order all-successful run after which the
second plan is empty. -/
theorem C2_resume_idempotent_in_order_witness :
    scrapePlan keyA 100
      (scrapeRunInOrder (id : Nat → Nat) keyA 100 (fun _ => [7])
        emptyCheckpoints).1 = [] :=
  C2_resume_idempotent_in_order id keyA 100 (fun _ => [7]) emptyCheckpoints
    (fun _ _ => List.cons_ne_nil 7 [])

/-- C5: the as_completed loop saves a checkpoint for a completed unit iff
the unit's issue list is non-empty, and then stores exactly
offset + MAX_RESULTS; an empty (failed or genuinely empty) unit leaves the
checkpoint state untouched, so a failed page never advances the checkpoint
past its own offset. -/
theorem C5_checkpoint_advance {ι ρ : Type} (tr : ι → ρ) (project_key : String)
    (fs : CheckpointState) (res : List ρ) (o : Nat) (issues : List ι) :
    (processUnit tr project_key (fs, res) (o, issues)).1
      = (if issues.isEmpty then fs
         else save_checkpoint project_key (o + MAX_RESULTS) fs) ∧
    (issues ≠ [] →
      load_checkpoint project_key
        (processUnit tr project_key (fs, res) (o, issues)).1
        = o + MAX_RESULTS) := by
  constructor
  · by_cases h : issues.isEmpty <;> simp [processUnit, h]
  · intro hne
    cases issues with
    | nil => exact absurd rfl hne
    | cons i t => simp [processUnit, load_save_same]

/-- C5 witness: a successful page at offset 0 carrying one issue stores
checkpoint 0 + MAX_RESULTS. -/
theorem C5_checkpoint_advance_witness :
    (processUnit (id : Nat → Nat) keyA (emptyCheckpoints, []) (0, [3])).1
      = save_checkpoint keyA (0 + MAX_RESULTS) emptyCheckpoints ∧
    load_checkpoint keyA
      (processUnit (id : Nat → Nat) keyA (emptyCheckpoints, []) (0, [3])).1
      = 0 + MAX_RESULTS := by
  have h := C5_checkpoint_advance (id : Nat → Nat) keyA emptyCheckpoints [] 0 [3]
  refine ⟨?_, h.2 (by decide)⟩
  simpa using h.1

/-- C6: at 1-based attempt number a, the computed sleep before retrying is
min(RETRY_BACKOFF * a, 60) for an HTTP 5xx response and for a
transport-level failure, and for an HTTP 429 response it is the parsed
Retry-After value, defaulting to 60 when the header is absent. -/
theorem C6_backoff_bound {β : Type} (attempt : Nat) :
    (∀ r : HttpResp β, 500 ≤ r.status → r.status < 600 →
      attemptStep attempt (Attempt.resp r)
        = Except.error (min (RETRY_BACKOFF * attempt) 60)) ∧
    attemptStep attempt (Attempt.transportError : Attempt β)
      = Except.error (min (RETRY_BACKOFF * attempt) 60) ∧
    (∀ r : HttpResp β, r.status = 429 →
      attemptStep attempt (Attempt.resp r)
        = Except.error (r.retryAfter.getD 60)) := by
  refine ⟨?_, rfl, ?_⟩
  · intro r h5 h6
    simp only [attemptStep]
    rw [if_neg (by omega), if_neg (by omega), if_pos ⟨h5, h6⟩]
  · intro r h429
    simp only [attemptStep]
    rw [if_neg (by omega), if_pos h429]

/-- C6 witness: at attempt 2, a 503 and a transport failure sleep
min(10, 60) = 10, and a 429 with Retry-After 7 sleeps 7. -/
theorem C6_backoff_bound_witness :
    attemptStep 2 (Attempt.resp (⟨503, none, 0⟩ : HttpResp Nat))
      = Except.error (min (RETRY_BACKOFF * 2) 60) ∧
    attemptStep 2 (Attempt.transportError : Attempt Nat)
      = Except.error (min (RETRY_BACKOFF * 2) 60) ∧
    attemptStep 2 (Attempt.resp (⟨429, some 7, 0⟩ : HttpResp Nat))
      = Except.error 7 :=
  ⟨(C6_backoff_bound 2).1 ⟨503, none, 0⟩ (by decide) (by decide),
   (C6_backoff_bound 2).2.1,
   (C6_backoff_bound 2).2.2 ⟨429, some 7, 0⟩ rfl⟩

/-- C7: when the attempt numbered a (within the retry budget) receives an
HTTP status that is neither 200 nor 429 nor 5xx, the executor returns None
at once: no sleep, and exactly one attempt made from that point (zero
additional attempts). -/
theorem C7_fail_fast {β : Type} (env : Nat → Attempt β) (a : Nat)
    (r : HttpResp β) (ha : a ≤ MAX_RETRIES) (henv : env a = Attempt.resp r)
    (h200 : r.status ≠ 200) (h429 : r.status ≠ 429)
    (h5xx : ¬(500 ≤ r.status ∧ r.status < 600)) :
    safe_request_from env a = ⟨none, [], 1⟩ := by
  rw [safe_request_from, dif_pos ha, henv]
  simp only [attemptStep]
  rw [if_neg h200, if_neg h429, if_neg h5xx]

/-- C7 witness: an environment answering 404 at every attempt makes the
executor return None after exactly one attempt and no sleeps. -/
theorem C7_fail_fast_witness :
    safe_request_from
      (fun _ => Attempt.resp (⟨404, none, 0⟩ : HttpResp Nat)) 1
      = ⟨none, [], 1⟩ :=
  C7_fail_fast (fun _ => Attempt.resp ⟨404, none, 0⟩) 1 ⟨404, none, 0⟩
    (by decide) rfl (by decide) (by decide) (by decide)

/-- C8 (counterexample): load is NOT non-fatal on every corrupt or
unreadable persisted representation.  A checkpoint file whose bytes are
valid JSON but not an object (e.g. the file containing 42 or []) decodes
fine, so the catch for JSONDecodeError never fires, and .get raises an
uncaught AttributeError; an existing file open cannot read raises an
uncaught OSError.  In neither case does load return 0 — the run crashes. -/
theorem C8_counterexample :
    load_checkpoint_full keyA (fun _ => some CheckpointFile.decodedNonObject)
      = Except.error PyError.attributeError ∧
    load_checkpoint_full keyA (fun _ => some CheckpointFile.unreadable)
      = Except.error PyError.osError ∧
    load_checkpoint_full keyA (fun _ => some CheckpointFile.decodedNonObject)
      ≠ Except.ok 0 :=
  ⟨rfl, rfl, fun h => Except.noConfusion h⟩

/-- C8 (amended): load returns 0 when no checkpoint file exists, and when
the file exists but its bytes fail JSON decoding it logs a warning and
returns 0 — but only JSON-syntax corruption is non-fatal: an existing file
that cannot be opened raises OSError, a file decoding to valid JSON that is
not an object raises AttributeError, and either uncaught exception crashes
the run; a decoded object yields its "last_startAt" field with default 0. -/
theorem C8_load_partial_nonfatal (project_key : String)
    (fs : FullCheckpointState) :
    (fs project_key = none →
      load_checkpoint_full project_key fs = Except.ok 0) ∧
    (fs project_key = some CheckpointFile.undecodable →
      load_checkpoint_full project_key fs = Except.ok 0) ∧
    (fs project_key = some CheckpointFile.unreadable →
      load_checkpoint_full project_key fs = Except.error PyError.osError) ∧
    (fs project_key = some CheckpointFile.decodedNonObject →
      load_checkpoint_full project_key fs
        = Except.error PyError.attributeError) ∧
    (∀ v : Option Nat,
      fs project_key = some (CheckpointFile.decodedObject v) →
      load_checkpoint_full project_key fs = Except.ok (v.getD 0)) := by
  refine ⟨?_, ?_, ?_, ?_, ?_⟩
  · intro h
    simp [load_checkpoint_full, h]
  · intro h
    simp [load_checkpoint_full, h]
  · intro h
    simp [load_checkpoint_full, h]
  · intro h
    simp [load_checkpoint_full, h]
  · intro v h
    simp [load_checkpoint_full, h]

/-- C8 witness: one concrete file state per case — absent and
JSON-undecodable load as 0, unreadable raises OSError, valid-JSON-non-object
raises AttributeError, and a well-formed object loads its stored offset. -/
theorem C8_load_partial_nonfatal_witness :
    load_checkpoint_full keyA (fun _ => none) = Except.ok 0 ∧
    load_checkpoint_full keyA (fun _ => some CheckpointFile.undecodable)
      = Except.ok 0 ∧
    load_checkpoint_full keyA (fun _ => some CheckpointFile.unreadable)
      = Except.error PyError.osError ∧
    load_checkpoint_full keyA (fun _ => some CheckpointFile.decodedNonObject)
      = Except.error PyError.attributeError ∧
    load_checkpoint_full keyA
      (fun _ => some (CheckpointFile.decodedObject (some 7)))
      = Except.ok 7 :=
  ⟨(C8_load_partial_nonfatal keyA (fun _ => none)).1 rfl,
   (C8_load_partial_nonfatal keyA
     (fun _ => some CheckpointFile.undecodable)).2.1 rfl,
   (C8_load_partial_nonfatal keyA
     (fun _ => some CheckpointFile.unreadable)).2.2.1 rfl,
   (C8_load_partial_nonfatal keyA
     (fun _ => some CheckpointFile.decodedNonObject)).2.2.2.1 rfl,
   (C8_load_partial_nonfatal keyA
     (fun _ => some (CheckpointFile.decodedObject (some 7)))).2.2.2.2
     (some 7) rfl⟩

/-- C9: when the resilient call yields None, fetch_page returns the
requested start offset with the empty issue list — the very value it
returns for a body whose issue list is empty or missing, so the scheduler
cannot tell a failed page from a genuinely empty one. -/
theorem C9_failed_eq_empty {ι : Type} (start_at : Nat) (body : JiraBody ι)
    (hbody : body.issues = some [] ∨ body.issues = none) :
    fetch_page start_at (none : Option (JiraBody ι))
      = (start_at, ([] : List ι)) ∧
    fetch_page start_at (some body)
      = fetch_page start_at (none : Option (JiraBody ι)) := by
  refine ⟨rfl, ?_⟩
  rcases hbody with h | h <;> simp [fetch_page, h]

/-- C9 witness: at offset 7, a failed call and a genuinely empty page give
the same result (7, []). -/
theorem C9_failed_eq_empty_witness :
    fetch_page 7 (none : Option (JiraBody Nat)) = (7, ([] : List Nat)) ∧
    fetch_page 7 (some (⟨none, some []⟩ : JiraBody Nat))
      = fetch_page 7 (none : Option (JiraBody Nat)) :=
  C9_failed_eq_empty 7 ⟨none, some []⟩ (Or.inl rfl)

/-- C10: checkpoint round-trip and isolation: saving offset v for
collection c then loading c yields v, and the save leaves every other
collection's loaded value unchanged. -/
theorem C10_roundtrip_isolation (c c₂ : String) (v : Nat)
    (fs : CheckpointState) (h : c₂ ≠ c) :
    load_checkpoint c (save_checkpoint c v fs) = v ∧
    load_checkpoint c₂ (save_checkpoint c v fs) = load_checkpoint c₂ fs :=
  ⟨load_save_same c v fs, load_save_other h v fs⟩

/-- C10 witness: saving 7 for one project round-trips and does not disturb
another project's (absent) checkpoint. -/
theorem C10_roundtrip_isolation_witness :
    load_checkpoint keyA (save_checkpoint keyA 7 emptyCheckpoints) = 7 ∧
    load_checkpoint keyB (save_checkpoint keyA 7 emptyCheckpoints)
      = load_checkpoint keyB emptyCheckpoints :=
  C10_roundtrip_isolation keyA keyB 7 emptyCheckpoints (by decide)
